import Mathlib

/-!
Shallow embedding of the `timeout` CLI supervisor (`src/main.rs`).

The program runs a child command under a wall-clock budget.  A command
thread spawns the child and polls it in a loop; two timer threads set the
atomic flags `should_terminate` and `should_kill`; `main` receives a
`TimeoutResult` over a channel and maps it to a process exit status.

The embedding below mirrors the source:
* `TimeoutResult` and the exit-code constants are the Rust enum and consts.
* `exitCodeOf` / `coordFinalize` embed the `match result` at the end of
  `main` (lines 217–246); `coordFinalize` additionally records the
  `debug_print!` lines produced under the verbose flag.
* `pollPhase` / `loopStep` / `runLoop` embed the supervisor poll loop
  (lines 110–187).  One `Obs` records what the loop observes in one
  iteration: the two flag loads and the `child.try_wait()` result.  The
  side effects of an iteration (signals sent, waits, sleeps, error prints)
  are recorded as a list of `Action`s.  `Sum.inl termSent` means the loop
  continues with the given `term_sent` value; `Sum.inr r` means the
  iteration sends outcome `r` and returns.
* `commandThread` adds the spawn-failure classification (lines 82–106).
* `termFireTime` / `killFireTime` / `flagAt` embed the two timer threads
  (lines 190–209): a timer that sleeps for duration `d` makes its flag
  read true at every time `t ≥ d` (time measured in seconds from session
  start).  `runTimed` ties the timers to the poll loop through an
  arbitrary monotone-free schedule `time i` of iteration read times.
-/

namespace TimeoutCli

/-- Exit status of the child as observed through `status.code()`:
`code = none` models `None` (no decodable exit code, e.g. the child was
terminated by a signal on unix). -/
structure ExitStatus where
  code : Option Int
  deriving Repr, DecidableEq

/-- The `TimeoutResult` enum (`src/main.rs` lines 38–46). -/
inductive TimeoutResult where
  | Completed (code : Int)
  | TimedOut
  | Killed
  | NotFound
  | CannotInvoke
  | InternalError
  deriving Repr, DecidableEq

/-- Exit code constant `EXIT_TIMEOUT` (`src/main.rs` line 32). -/
def EXIT_TIMEOUT : Nat := 124

/-- Exit code constant `EXIT_TIMEOUT_FAIL` (`src/main.rs` line 33). -/
def EXIT_TIMEOUT_FAIL : Nat := 125

/-- Exit code constant `EXIT_CANNOT_INVOKE` (`src/main.rs` line 34). -/
def EXIT_CANNOT_INVOKE : Nat := 126

/-- Exit code constant `EXIT_NOT_FOUND` (`src/main.rs` line 35). -/
def EXIT_NOT_FOUND : Nat := 127

/-- Exit code constant `EXIT_KILLED` (`src/main.rs` line 36). -/
def EXIT_KILLED : Nat := 137

/-- Exit-status mapping of `main` (`src/main.rs` lines 217–246), code part:
`Completed(n)` yields `n as u8` when `(0..=255).contains(&n)` and
`ExitCode::from(1)` otherwise; the other variants map to the constants. -/
def exitCodeOf : TimeoutResult → Nat
  | TimeoutResult.Completed exitCode =>
      if 0 ≤ exitCode ∧ exitCode ≤ 255 then exitCode.toNat else 1
  | TimeoutResult.TimedOut => EXIT_TIMEOUT
  | TimeoutResult.Killed => EXIT_KILLED
  | TimeoutResult.NotFound => EXIT_NOT_FOUND
  | TimeoutResult.CannotInvoke => EXIT_CANNOT_INVOKE
  | TimeoutResult.InternalError => EXIT_TIMEOUT_FAIL

/-- One line produced by the `debug_print!` macro (`src/main.rs` lines
48–54): `eprintln!("DEBUG: {}", msg)` when verbose is true. -/
def debugLine (msg : String) : String := "DEBUG: " ++ msg

/-- Final stage of `main` (`src/main.rs` lines 217–248): from the received
`TimeoutResult` and the verbose flag, the process exit status and the list
of standard-error debug lines emitted by the `match` arms. -/
def coordFinalize (result : TimeoutResult) (verbose : Bool) : Nat × List String :=
  match result with
  | TimeoutResult.Completed exitCode =>
      ((if 0 ≤ exitCode ∧ exitCode ≤ 255 then exitCode.toNat else 1),
       if verbose then
         [debugLine ("Command completed normally with exit code " ++ toString exitCode)]
       else [])
  | TimeoutResult.TimedOut =>
      (EXIT_TIMEOUT, if verbose then [debugLine "Command timed out"] else [])
  | TimeoutResult.Killed =>
      (EXIT_KILLED, if verbose then [debugLine "Command killed with KILL signal"] else [])
  | TimeoutResult.NotFound =>
      (EXIT_NOT_FOUND, if verbose then [debugLine "Command not found"] else [])
  | TimeoutResult.CannotInvoke =>
      (EXIT_CANNOT_INVOKE, if verbose then [debugLine "Command cannot be invoked"] else [])
  | TimeoutResult.InternalError =>
      (EXIT_TIMEOUT_FAIL, if verbose then [debugLine "Internal error occurred"] else [])

/-- Receipt of the outcome in `main` (`src/main.rs` line 212):
`rx.recv().unwrap_or(TimeoutResult::InternalError)` — a closed channel
with no outcome sent (`recv` returns `Err`, modelled as `none`) falls back
to `InternalError`. -/
def coordinatorReceive (received : Option TimeoutResult) : TimeoutResult :=
  received.getD TimeoutResult.InternalError

/-- Observable side effects of the supervisor loop.  `SendTerm` is the
unix `libc::kill(pid, SIGTERM)` (line 129), `SendKill` is `child.kill()`
(lines 114, 136, 145), `Reap` is a wait that collects the child's status
(`child.wait()` at lines 115, 146, or `try_wait` returning `Some` at line
156), `SleepGrace` is the fixed 100 ms grace sleep (line 144), `SleepPoll`
is the 10 ms poll sleep (line 178), `PrintErr` is an `eprintln!`. -/
inductive Action where
  | SendTerm
  | SendKill
  | Reap
  | SleepGrace
  | SleepPoll
  | PrintErr (msg : String)
  deriving Repr, DecidableEq

/-- What one iteration of the poll loop observes from its environment:
the two `Ordering::Relaxed` flag loads and the `child.try_wait()` result.
`tryWait = .ok none` is `Ok(None)` (still running), `.ok (some st)` is
`Ok(Some(status))` (exited), `.error e` is `Err(e)` with OS error text
`e`. -/
structure Obs where
  killFlag : Bool
  termFlag : Bool
  tryWait : Except String (Option ExitStatus)

/-- Tail of one poll-loop iteration: the `child.try_wait()` match
(`src/main.rs` lines 155–186).  `termSent` is the value of the `term_sent`
local at this point, `acc` the actions already taken earlier in the
iteration.  On `Ok(Some(status))` the code computes
`status.code().unwrap_or(-1)` and sends `TimedOut` when `term_sent` is set
(both the kill-after-present and kill-after-absent branches at lines
162–169 send `TimedOut`), else `Completed(exit_code)`.  On `Ok(None)` it
sleeps 10 ms and loops.  On `Err(e)` it prints a diagnostic and sends
`InternalError` (without any further wait on the child). -/
def pollPhase (termSent : Bool) (acc : List Action) (o : Obs) :
    List Action × (Bool ⊕ TimeoutResult) :=
  match o.tryWait with
  | Except.ok (some status) =>
      if termSent then
        (acc ++ [Action.Reap], Sum.inr TimeoutResult.TimedOut)
      else
        (acc ++ [Action.Reap], Sum.inr (TimeoutResult.Completed (status.code.getD (-1))))
  | Except.ok none => (acc ++ [Action.SleepPoll], Sum.inl termSent)
  | Except.error e =>
      (acc ++ [Action.PrintErr ("timeout: error waiting for child process: " ++ e)],
        Sum.inr TimeoutResult.InternalError)

/-- One iteration of the supervisor poll loop (`src/main.rs` lines
110–187), in source order: first the `should_kill` load (line 112) — if
set, `child.kill()`, `child.wait()`, send `Killed`, return; then the
`should_terminate && !term_sent` check (line 122) — send SIGTERM once,
and if no kill-after was configured (`kill_after_duration.is_none()`,
line 142) sleep 100 ms, `child.kill()`, `child.wait()`, send `TimedOut`,
return, while with kill-after configured the loop merely records
`term_sent = true` and falls through; finally the `try_wait` check. -/
def loopStep (killAfterConfigured termSent : Bool) (o : Obs) :
    List Action × (Bool ⊕ TimeoutResult) :=
  if o.killFlag then
    ([Action.SendKill, Action.Reap], Sum.inr TimeoutResult.Killed)
  else if o.termFlag && !termSent then
    if killAfterConfigured then
      pollPhase true [Action.SendTerm] o
    else
      ([Action.SendTerm, Action.SleepGrace, Action.SendKill, Action.Reap],
        Sum.inr TimeoutResult.TimedOut)
  else
    pollPhase termSent [] o

/-- The supervisor loop over a finite trace of iteration observations,
accumulating actions.  The second component is `some r` when an iteration
sent terminal outcome `r` and returned, and `none` when the trace was
exhausted with the loop still running (no outcome produced yet). -/
def runLoop (killAfterConfigured : Bool) :
    Bool → List Obs → List Action × Option TimeoutResult
  | _, [] => ([], none)
  | termSent, o :: rest =>
    match loopStep killAfterConfigured termSent o with
    | (acts, Sum.inr outcome) => (acts, some outcome)
    | (acts, Sum.inl termSent') =>
      let r := runLoop killAfterConfigured termSent' rest
      (acts ++ r.1, r.2)

/-- Classification of `cmd.spawn()` errors by `e.kind()` (`src/main.rs`
lines 87–102).  `Other msg` carries the `Display` text of any other
`io::Error`. -/
inductive SpawnErrorKind where
  | NotFound
  | PermissionDenied
  | Other (msg : String)
  deriving Repr, DecidableEq

/-- Outcome sent for each spawn-error kind (`src/main.rs` lines 89–102). -/
def spawnOutcome : SpawnErrorKind → TimeoutResult
  | SpawnErrorKind.NotFound => TimeoutResult.NotFound
  | SpawnErrorKind.PermissionDenied => TimeoutResult.CannotInvoke
  | SpawnErrorKind.Other _ => TimeoutResult.InternalError

/-- Diagnostic line printed for each spawn-error kind (`src/main.rs`
lines 91, 95, 99); each interpolates the command name. -/
def spawnDiagnostic (k : SpawnErrorKind) (commandName : String) : String :=
  match k with
  | SpawnErrorKind.NotFound =>
      "timeout: failed to run command \x27" ++
        (commandName ++ "\x27: No such file or directory")
  | SpawnErrorKind.PermissionDenied =>
      "timeout: failed to run command \x27" ++
        (commandName ++ "\x27: Permission denied")
  | SpawnErrorKind.Other msg =>
      "timeout: failed to run command \x27" ++ (commandName ++ ("\x27: " ++ msg))

/-- The whole command thread (`src/main.rs` lines 76–188): on spawn
failure it prints the diagnostic, sends the classified outcome and
returns without running the poll loop; on success it runs the poll loop
with `term_sent = false`. -/
def commandThread (spawnResult : Except SpawnErrorKind Unit) (commandName : String)
    (killAfterConfigured : Bool) (trace : List Obs) :
    List Action × Option TimeoutResult :=
  match spawnResult with
  | Except.error e =>
      ([Action.PrintErr (spawnDiagnostic e commandName)], some (spawnOutcome e))
  | Except.ok _ => runLoop killAfterConfigured false trace

/-- Fire time of the timeout timer thread (`src/main.rs` lines 192–197):
it sleeps `timeout_duration` then stores `true` into `should_terminate`. -/
def termFireTime (timeoutSecs : Nat) : Nat := timeoutSecs

/-- Fire time of the kill-after timer thread (`src/main.rs` lines
200–208): `total_duration = timeout_duration + kill_duration` (line 202),
slept in full before storing `true` into `should_kill`. -/
def killFireTime (timeoutSecs killAfterSecs : Nat) : Nat :=
  timeoutSecs + killAfterSecs

/-- Value of a timer-backed flag at time `t` (seconds from session
start): the flag reads `true` exactly when the timer has fired, i.e.
when `fireTime ≤ t`. -/
def flagAt (fireTime t : Nat) : Bool := decide (fireTime ≤ t)

/-- Observation of iteration `i` in the timed model: the flags are read at
time `time i`, driven by the timer fire times (`killFT = none` when no
kill-after timer was started, in which case `should_kill` stays false),
and the `try_wait` result comes from the child behaviour `child i`. -/
def obsAt (termFT : Nat) (killFT : Option Nat) (time : Nat → Nat)
    (child : Nat → Except String (Option ExitStatus)) (i : Nat) : Obs :=
  { killFlag :=
      match killFT with
      | some f => flagAt f (time i)
      | none => false
    termFlag := flagAt termFT (time i)
    tryWait := child i }

/-- Trace of `n` timed iterations starting at iteration index `i`. -/
def timedTraceFrom (termFT : Nat) (killFT : Option Nat) (time : Nat → Nat)
    (child : Nat → Except String (Option ExitStatus)) : Nat → Nat → List Obs
  | _, 0 => []
  | i, n + 1 =>
    obsAt termFT killFT time child i ::
      timedTraceFrom termFT killFT time child (i + 1) n

/-- The supervisor loop driven by the two timers of `main` for a session
configured with `timeoutSecs` and optional `killAfterSecs`: the timeout
timer fires at `timeoutSecs`, the kill-after timer (if configured) at
`timeoutSecs + killAfterSecs`, and iteration `i` reads the flags at time
`time i`. -/
def runTimed (timeoutSecs : Nat) (killAfterSecs : Option Nat) (time : Nat → Nat)
    (child : Nat → Except String (Option ExitStatus)) (iterations : Nat) :
    List Action × Option TimeoutResult :=
  runLoop killAfterSecs.isSome false
    (timedTraceFrom (termFireTime timeoutSecs)
      (killAfterSecs.map (killFireTime timeoutSecs)) time child 0 iterations)

/-- Number of occurrences of action `a` in a list of actions. -/
def countA (a : Action) : List Action → Nat
  | [] => 0
  | b :: l => (if b = a then 1 else 0) + countA a l

/-- C1: The final process exit status is determined solely by the
`TimeoutResult` outcome, exactly as the section 6 table: `Completed n`
yields `n` when `0 ≤ n ≤ 255` and the generic failure code 1 otherwise,
`TimedOut` yields 124, `Killed` 137, `NotFound` 127, `CannotInvoke` 126,
`InternalError` 125. -/
theorem exit_status_table (n : Int) :
    exitCodeOf (TimeoutResult.Completed n)
        = (if 0 ≤ n ∧ n ≤ 255 then n.toNat else 1) ∧
    exitCodeOf TimeoutResult.TimedOut = 124 ∧
    exitCodeOf TimeoutResult.Killed = 137 ∧
    exitCodeOf TimeoutResult.NotFound = 127 ∧
    exitCodeOf TimeoutResult.CannotInvoke = 126 ∧
    exitCodeOf TimeoutResult.InternalError = 125 :=
  ⟨rfl, rfl, rfl, rfl, rfl, rfl⟩

/-- C8: A closed outcome channel with no outcome ever sent is received as
`InternalError`, mapped to exit status 125 — never a crash. -/
theorem closed_channel_internal_error :
    coordinatorReceive none = TimeoutResult.InternalError ∧
    exitCodeOf (coordinatorReceive none) = 125 :=
  ⟨rfl, rfl⟩

/-- C10: For every fixed outcome the final exit status is the same whether
the verbose flag is true or false (and equals `exitCodeOf`); with verbose
off no debug line is emitted, and with verbose on the emitted line is
prefixed with `DEBUG: `. -/
theorem verbose_independent (r : TimeoutResult) (v₁ v₂ : Bool) :
    (coordFinalize r v₁).1 = (coordFinalize r v₂).1 ∧
    (coordFinalize r v₁).1 = exitCodeOf r ∧
    (coordFinalize r false).2 = [] ∧
    ∃ m, (coordFinalize r true).2 = ["DEBUG: " ++ m] := by
  cases r <;> cases v₁ <;> cases v₂ <;> exact ⟨rfl, rfl, rfl, _, rfl⟩

/-- C2: The kill-flag check comes first in every iteration: if the
kill-flag is set at the start of an iteration, that iteration forcibly
kills, reaps, and the session returns `Killed` — whatever the terminate
flag and the `try_wait` observation say (in particular even if the child
has already exited). -/
theorem kill_check_first (killAfterConfigured termSent : Bool) (o : Obs)
    (rest : List Obs) (hk : o.killFlag = true) :
    loopStep killAfterConfigured termSent o
        = ([Action.SendKill, Action.Reap], Sum.inr TimeoutResult.Killed) ∧
    runLoop killAfterConfigured termSent (o :: rest)
        = ([Action.SendKill, Action.Reap], some TimeoutResult.Killed) := by
  constructor
  · simp [loopStep, hk]
  · simp [runLoop, loopStep, hk]

/-- Witness for `kill_check_first`: an iteration whose observation has the
kill flag set and the child already exited (with exit code 0) still
returns `Killed`. -/
theorem kill_check_first_witness :
    loopStep true false
        { killFlag := true, termFlag := true,
          tryWait := Except.ok (some { code := some 0 }) }
        = ([Action.SendKill, Action.Reap], Sum.inr TimeoutResult.Killed) ∧
    runLoop true false
        [{ killFlag := true, termFlag := true,
           tryWait := Except.ok (some { code := some 0 }) }]
        = ([Action.SendKill, Action.Reap], some TimeoutResult.Killed) :=
  kill_check_first true false _ [] rfl

/-- C3: When the child is observed to have exited: if the graceful
terminate request was already sent the iteration returns `TimedOut`, for
either value of the kill-after configuration; if no termination request
was ever sent it returns `Completed (status.code.getD (-1))` — the
child's reported code, or the sentinel -1 when the status carries no
code. -/
theorem exit_observation_outcomes (killAfterConfigured termSent : Bool)
    (o : Obs) (st : ExitStatus) (hk : o.killFlag = false)
    (hw : o.tryWait = Except.ok (some st)) :
    (termSent = true →
      loopStep killAfterConfigured termSent o
        = ([Action.Reap], Sum.inr TimeoutResult.TimedOut)) ∧
    (termSent = false → o.termFlag = false →
      loopStep killAfterConfigured termSent o
        = ([Action.Reap], Sum.inr (TimeoutResult.Completed (st.code.getD (-1))))) := by
  constructor
  · intro h
    subst h
    simp [loopStep, pollPhase, hk, hw]
  · intro h ht
    subst h
    simp [loopStep, pollPhase, hk, hw, ht]

/-- Witness for `exit_observation_outcomes`: with the terminate request
already sent the exited child yields `TimedOut` (kill-after configured);
with no request ever sent and an undecodable status it yields
`Completed (-1)`. -/
theorem exit_observation_outcomes_witness :
    loopStep true true
        { killFlag := false, termFlag := true,
          tryWait := Except.ok (some { code := some 7 }) }
        = ([Action.Reap], Sum.inr TimeoutResult.TimedOut) ∧
    loopStep false false
        { killFlag := false, termFlag := false,
          tryWait := Except.ok (some { code := none }) }
        = ([Action.Reap], Sum.inr (TimeoutResult.Completed (-1))) :=
  ⟨(exit_observation_outcomes true true _ { code := some 7 } rfl rfl).1 rfl,
   (exit_observation_outcomes false false _ { code := none } rfl rfl).2 rfl rfl⟩

/-- C4: When the terminate flag is observed set and no terminate was sent
yet: with no kill-after configured the iteration sends one SIGTERM,
sleeps the fixed 100 ms grace window, then unconditionally kills, reaps
and returns `TimedOut`; with kill-after configured it only sends SIGTERM,
records `term_sent = true` and keeps polling (here: the child is still
running, so the iteration sleeps the poll interval and continues). -/
theorem terminate_escalation (killAfterConfigured : Bool) (o : Obs)
    (hk : o.killFlag = false) (ht : o.termFlag = true) :
    (killAfterConfigured = false →
      loopStep killAfterConfigured false o
        = ([Action.SendTerm, Action.SleepGrace, Action.SendKill, Action.Reap],
            Sum.inr TimeoutResult.TimedOut)) ∧
    (killAfterConfigured = true → o.tryWait = Except.ok none →
      loopStep killAfterConfigured false o
        = ([Action.SendTerm, Action.SleepPoll], Sum.inl true)) := by
  constructor
  · intro h
    subst h
    simp [loopStep, hk, ht]
  · intro h hw
    subst h
    simp [loopStep, pollPhase, hk, ht, hw]

/-- Witness for `terminate_escalation`: both branches at concrete
observations — note the no-kill-after branch fires even though the same
observation reports the child as already exited. -/
theorem terminate_escalation_witness :
    loopStep false false
        { killFlag := false, termFlag := true,
          tryWait := Except.ok (some { code := some 0 }) }
        = ([Action.SendTerm, Action.SleepGrace, Action.SendKill, Action.Reap],
            Sum.inr TimeoutResult.TimedOut) ∧
    loopStep true false
        { killFlag := false, termFlag := true, tryWait := Except.ok none }
        = ([Action.SendTerm, Action.SleepPoll], Sum.inl true) :=
  ⟨(terminate_escalation false _ rfl rfl).1 rfl,
   (terminate_escalation true _ rfl rfl).2 rfl rfl⟩

/-- C5: The kill-after timer is started with duration
`timeout + kill-after` — additive, not relative to when SIGTERM was
sent — and consequently whenever the kill flag reads true the terminate
flag already reads true: the kill request is never set before the
terminate request. -/
theorem kill_timer_additive (timeoutSecs killAfterSecs t : Nat)
    (h : flagAt (killFireTime timeoutSecs killAfterSecs) t = true) :
    killFireTime timeoutSecs killAfterSecs = termFireTime timeoutSecs + killAfterSecs ∧
    flagAt (termFireTime timeoutSecs) t = true := by
  refine ⟨rfl, ?_⟩
  simp only [flagAt, killFireTime, termFireTime, decide_eq_true_eq] at h ⊢
  omega

/-- Witness for `kill_timer_additive`: a session with timeout 2 s and
kill-after 3 s observed at time 5 s. -/
theorem kill_timer_additive_witness :
    killFireTime 2 3 = termFireTime 2 + 3 ∧ flagAt (termFireTime 2) 5 = true :=
  kill_timer_additive 2 3 5 (by decide)

/-- C6: A spawn failure is classified by the OS error kind — not-found
yields `NotFound`, permission-denied yields `CannotInvoke`, anything else
yields `InternalError` — a diagnostic naming the command is printed in
all three cases, and the thread returns at once: the result is the same
for every poll trace, i.e. the poll loop never runs. -/
theorem spawn_failure_classification (k : SpawnErrorKind) (name : String)
    (killAfterConfigured : Bool) (trace : List Obs) :
    commandThread (Except.error k) name killAfterConfigured trace
        = ([Action.PrintErr (spawnDiagnostic k name)], some (spawnOutcome k)) ∧
    (∃ pre post, spawnDiagnostic k name = pre ++ (name ++ post)) ∧
    spawnOutcome SpawnErrorKind.NotFound = TimeoutResult.NotFound ∧
    spawnOutcome SpawnErrorKind.PermissionDenied = TimeoutResult.CannotInvoke ∧
    (∀ m, spawnOutcome (SpawnErrorKind.Other m) = TimeoutResult.InternalError) := by
  refine ⟨rfl, ?_, rfl, rfl, fun _ => rfl⟩
  cases k <;> exact ⟨_, _, rfl⟩

/-- Counting distributes over list append. -/
theorem countA_append (a : Action) (l₁ l₂ : List Action) :
    countA a (l₁ ++ l₂) = countA a l₁ + countA a l₂ := by
  induction l₁ with
  | nil => simp [countA]
  | cons b l ih => simp [countA, ih, Nat.add_assoc]

/-- Case analysis of one poll-loop iteration: every iteration either
returns `Killed` after kill+reap, sends the one SIGTERM (four sub-cases:
grace-window `TimedOut`, exit-reap `TimedOut`, continue polling, wait
error), observes an exit (reap then `TimedOut` or `Completed`), keeps
polling, or hits a wait error. -/
theorem loopStep_shape (ka ts : Bool) (o : Obs) :
    loopStep ka ts o = ([Action.SendKill, Action.Reap], Sum.inr TimeoutResult.Killed)
    ∨ (ts = false ∧ loopStep ka ts o
        = ([Action.SendTerm, Action.SleepGrace, Action.SendKill, Action.Reap],
            Sum.inr TimeoutResult.TimedOut))
    ∨ (ts = false ∧ loopStep ka ts o
        = ([Action.SendTerm, Action.Reap], Sum.inr TimeoutResult.TimedOut))
    ∨ (ts = false ∧ loopStep ka ts o
        = ([Action.SendTerm, Action.SleepPoll], Sum.inl true))
    ∨ (ts = false ∧ ∃ m, loopStep ka ts o
        = ([Action.SendTerm, Action.PrintErr m], Sum.inr TimeoutResult.InternalError))
    ∨ (ts = true ∧ loopStep ka ts o
        = ([Action.Reap], Sum.inr TimeoutResult.TimedOut))
    ∨ (ts = false ∧ o.termFlag = false ∧ ∃ code, loopStep ka ts o
        = ([Action.Reap], Sum.inr (TimeoutResult.Completed code)))
    ∨ ((o.termFlag && !ts) = false ∧ loopStep ka ts o
        = ([Action.SleepPoll], Sum.inl ts))
    ∨ (∃ m, loopStep ka ts o
        = ([Action.PrintErr m], Sum.inr TimeoutResult.InternalError)) := by
  by_cases hk : o.killFlag
  · exact Or.inl (by simp [loopStep, hk])
  · replace hk : o.killFlag = false := by simpa using hk
    by_cases htb : (o.termFlag && !ts) = true
    · have hts : ts = false := by
        cases ts <;> simp_all
      by_cases hka : ka
      · cases hw : o.tryWait with
        | error m =>
          exact Or.inr (Or.inr (Or.inr (Or.inr (Or.inl
            ⟨hts, "timeout: error waiting for child process: " ++ m,
              by simp [loopStep, pollPhase, hk, htb, hka, hw]⟩))))
        | ok s =>
          cases s with
          | none =>
            exact Or.inr (Or.inr (Or.inr (Or.inl
              ⟨hts, by simp [loopStep, pollPhase, hk, htb, hka, hw]⟩)))
          | some st =>
            exact Or.inr (Or.inr (Or.inl
              ⟨hts, by simp [loopStep, pollPhase, hk, htb, hka, hw]⟩))
      · have hka' : ka = false := by simpa using hka
        exact Or.inr (Or.inl ⟨hts, by simp [loopStep, hk, htb, hka']⟩)
    · replace htb : (o.termFlag && !ts) = false := by simpa using htb
      cases hw : o.tryWait with
      | error m =>
        exact Or.inr (Or.inr (Or.inr (Or.inr (Or.inr (Or.inr (Or.inr (Or.inr
          ⟨"timeout: error waiting for child process: " ++ m,
            by simp [loopStep, pollPhase, hk, htb, hw]⟩)))))))
      | ok s =>
        cases s with
        | none =>
          exact Or.inr (Or.inr (Or.inr (Or.inr (Or.inr (Or.inr (Or.inr (Or.inl
            ⟨htb, by simp [loopStep, pollPhase, hk, htb, hw]⟩)))))))
        | some st =>
          cases ts with
          | true =>
            exact Or.inr (Or.inr (Or.inr (Or.inr (Or.inr (Or.inl
              ⟨rfl, by simp [loopStep, pollPhase, hk, htb, hw]⟩)))))
          | false =>
            have htf : o.termFlag = false := by simpa using htb
            exact Or.inr (Or.inr (Or.inr (Or.inr (Or.inr (Or.inr (Or.inl
              ⟨rfl, htf, st.code.getD (-1),
                by simp [loopStep, pollPhase, hk, htf, hw]⟩))))))

/-- Runs of the poll loop from any `term_sent` state send at most one KILL,
send at most one SIGTERM (none when `term_sent` already holds), and reap
the child on every terminal path other than the wait-error
(`InternalError`) one. -/
theorem runLoop_facts (ka : Bool) (trace : List Obs) :
    ∀ ts : Bool,
      countA Action.SendKill (runLoop ka ts trace).1 ≤ 1 ∧
      countA Action.SendTerm (runLoop ka ts trace).1 ≤ (if ts then 0 else 1) ∧
      ∀ out, (runLoop ka ts trace).2 = some out →
        out ≠ TimeoutResult.InternalError →
        Action.Reap ∈ (runLoop ka ts trace).1 := by
  induction trace with
  | nil =>
    intro ts
    refine ⟨by simp [runLoop, countA], by simp [runLoop, countA], ?_⟩
    intro out hout
    simp [runLoop] at hout
  | cons o rest ih =>
    intro ts
    rcases loopStep_shape ka ts o with h | ⟨hts, h⟩ | ⟨hts, h⟩ | ⟨hts, h⟩ |
      ⟨hts, m, h⟩ | ⟨hts, h⟩ | ⟨hts, htf, code, h⟩ | ⟨htf, h⟩ | ⟨m, h⟩
    · refine ⟨by simp [runLoop, h, countA], by simp [runLoop, h, countA], ?_⟩
      intro out hout hne
      simp [runLoop, h]
    · subst hts
      refine ⟨by simp [runLoop, h, countA], by simp [runLoop, h, countA], ?_⟩
      intro out hout hne
      simp [runLoop, h]
    · subst hts
      refine ⟨by simp [runLoop, h, countA], by simp [runLoop, h, countA], ?_⟩
      intro out hout hne
      simp [runLoop, h]
    · subst hts
      have ihk := (ih true).1
      have iht := (ih true).2.1
      have ihr := (ih true).2.2
      simp at iht
      refine ⟨?_, ?_, ?_⟩
      · simp only [runLoop, h, countA_append]
        simpa [countA] using ihk
      · simp only [runLoop, h, countA_append]
        simp [countA, iht]
      · intro out hout hne
        simp only [runLoop, h] at hout ⊢
        have hm := ihr out hout hne
        simp [hm]
    · subst hts
      refine ⟨by simp [runLoop, h, countA], by simp [runLoop, h, countA], ?_⟩
      intro out hout hne
      simp [runLoop, h] at hout
      simp_all
    · subst hts
      refine ⟨by simp [runLoop, h, countA], by simp [runLoop, h, countA], ?_⟩
      intro out hout hne
      simp [runLoop, h]
    · subst hts
      refine ⟨by simp [runLoop, h, countA], by simp [runLoop, h, countA], ?_⟩
      intro out hout hne
      simp [runLoop, h]
    · have ihk := (ih ts).1
      have iht := (ih ts).2.1
      have ihr := (ih ts).2.2
      refine ⟨?_, ?_, ?_⟩
      · simp only [runLoop, h, countA_append]
        simpa [countA] using ihk
      · simp only [runLoop, h, countA_append]
        simpa [countA] using iht
      · intro out hout hne
        simp only [runLoop, h] at hout ⊢
        have hm := ihr out hout hne
        simp [hm]
    · refine ⟨by simp [runLoop, h, countA], by simp [runLoop, h, countA], ?_⟩
      intro out hout hne
      simp [runLoop, h] at hout
      simp_all

/-- C7 counterexample: on the wait-error path the supervisor ends without
reaping the child — a run whose single iteration observes a `try_wait`
error terminates with `InternalError` and its action trace contains no
wait on the child, refuting "the child is always reaped before the
supervisor unit ends". -/
theorem reap_missing_on_wait_error :
    (runLoop false false
        [{ killFlag := false, termFlag := false,
           tryWait := Except.error "EPERM" }]).2
        = some TimeoutResult.InternalError ∧
    Action.Reap ∉ (runLoop false false
        [{ killFlag := false, termFlag := false,
           tryWait := Except.error "EPERM" }]).1 := by
  decide

/-- C7 amended: every supervised session sends at most one graceful
termination signal and at most one forced kill signal to the child, and
on every terminal path except the wait-error (`InternalError`) path the
child is reaped before the supervisor unit ends. -/
theorem signal_and_reap_invariant (ka : Bool) (trace : List Obs) :
    countA Action.SendKill (runLoop ka false trace).1 ≤ 1 ∧
    countA Action.SendTerm (runLoop ka false trace).1 ≤ 1 ∧
    ∀ out, (runLoop ka false trace).2 = some out →
      out ≠ TimeoutResult.InternalError →
      Action.Reap ∈ (runLoop ka false trace).1 := by
  have h := runLoop_facts ka trace false
  simpa using h

/-- Witness for `signal_and_reap_invariant`: a session killed in its
first iteration reaps the child. -/
theorem signal_and_reap_invariant_witness :
    Action.Reap ∈ (runLoop false false
        [{ killFlag := true, termFlag := false, tryWait := Except.ok none }]).1 :=
  (signal_and_reap_invariant false
      [{ killFlag := true, termFlag := false, tryWait := Except.ok none }]).2.2
    TimeoutResult.Killed rfl (by decide)

/-- Runs of the poll loop over a trace in which every iteration observes
the terminate flag set never produce `Completed`: the terminate check
precedes the exit check, so `term_sent` holds by the time any exit is
observed. -/
theorem runLoop_no_completed (ka : Bool) (trace : List Obs) :
    ∀ ts : Bool, (∀ o ∈ trace, o.termFlag = true) →
      ∀ c : Int, (runLoop ka ts trace).2 ≠ some (TimeoutResult.Completed c) := by
  induction trace with
  | nil =>
    intro ts _ c
    simp [runLoop]
  | cons o rest ih =>
    intro ts hall c
    have htail : ∀ x ∈ rest, x.termFlag = true :=
      fun x hx => hall x (List.mem_cons_of_mem _ hx)
    have hhead : o.termFlag = true := hall o (List.mem_cons_self o rest)
    rcases loopStep_shape ka ts o with h | ⟨hts, h⟩ | ⟨hts, h⟩ | ⟨hts, h⟩ |
      ⟨hts, m, h⟩ | ⟨hts, h⟩ | ⟨hts, htf, code, h⟩ | ⟨htf, h⟩ | ⟨m, h⟩
    · simp [runLoop, h]
    · simp [runLoop, h]
    · simp [runLoop, h]
    · simpa [runLoop, h] using ih true htail c
    · simp [runLoop, h]
    · simp [runLoop, h]
    · simp [htf] at hhead
    · simpa [runLoop, h] using ih ts htail c
    · simp [runLoop, h]

/-- Every observation of a timed trace whose terminate timer fired at
time 0 reads the terminate flag as set. -/
theorem timedTraceFrom_termFlag (killFT : Option Nat) (time : Nat → Nat)
    (child : Nat → Except String (Option ExitStatus)) :
    ∀ n i : Nat, ∀ o ∈ timedTraceFrom 0 killFT time child i n, o.termFlag = true := by
  intro n
  induction n with
  | zero =>
    intro i o ho
    simp [timedTraceFrom] at ho
  | succ k ih =>
    intro i o ho
    rw [timedTraceFrom] at ho
    rcases List.mem_cons.mp ho with h | h
    · subst h
      simp [obsAt, flagAt]
    · exact ih (i + 1) o h

/-- C9 counterexample: with `seconds = 0` and `kill-after = 0` configured,
a session whose child never exits observes the kill flag already set in
its first iteration and returns `Killed` (exit 137), not `TimedOut`
(exit 124) — so zero timeout does not always yield `TimedOut`. -/
theorem zero_timeout_killed_counterexample :
    (runTimed 0 (some 0) (fun i => i) (fun _ => Except.ok none) 1).2
        = some TimeoutResult.Killed ∧
    (runTimed 0 (some 0) (fun i => i) (fun _ => Except.ok none) 1).2
        ≠ some TimeoutResult.TimedOut ∧
    exitCodeOf TimeoutResult.Killed = 137 ∧
    exitCodeOf TimeoutResult.TimedOut = 124 := by
  decide

/-- C9 amended: with `seconds = 0` the outcome is never `Completed`, for
any command, schedule and kill-after configuration; when no kill-after is
configured the outcome of any session that runs at least one iteration
is exactly `TimedOut`. -/
theorem zero_timeout_never_completed (killAfterSecs : Option Nat)
    (time : Nat → Nat) (child : Nat → Except String (Option ExitStatus))
    (iterations : Nat) :
    (∀ c : Int, (runTimed 0 killAfterSecs time child iterations).2
        ≠ some (TimeoutResult.Completed c)) ∧
    (killAfterSecs = none → 1 ≤ iterations →
      (runTimed 0 killAfterSecs time child iterations).2
        = some TimeoutResult.TimedOut) := by
  constructor
  · intro c
    have hall := timedTraceFrom_termFlag (killAfterSecs.map (killFireTime 0))
      time child iterations 0
    have hnc := runLoop_no_completed killAfterSecs.isSome
      (timedTraceFrom 0 (killAfterSecs.map (killFireTime 0)) time child 0 iterations)
      false hall c
    simpa [runTimed, termFireTime] using hnc
  · intro hnone hiter
    subst hnone
    obtain ⟨n, rfl⟩ : ∃ n, iterations = n + 1 := ⟨iterations - 1, by omega⟩
    simp [runTimed, timedTraceFrom, runLoop, loopStep, obsAt, flagAt, termFireTime]

/-- Witness for `zero_timeout_never_completed`: a zero-timeout session
with no kill-after and a still-running child times out in one iteration,
and its outcome is not `Completed 0`. -/
theorem zero_timeout_never_completed_witness :
    (runTimed 0 none (fun i => i) (fun _ => Except.ok none) 1).2
        = some TimeoutResult.TimedOut ∧
    (runTimed 0 none (fun i => i) (fun _ => Except.ok none) 1).2
        ≠ some (TimeoutResult.Completed 0) :=
  ⟨(zero_timeout_never_completed none (fun i => i) (fun _ => Except.ok none) 1).2
      rfl (by decide),
   (zero_timeout_never_completed none (fun i => i) (fun _ => Except.ok none) 1).1 0⟩

end TimeoutCli
